import Mathlib

/-!
Shallow embedding of the ACG scene binary codec and its in-memory data model
(`src/loader/data_structures.py`, `src/loader/binary_exporter.py`,
`src/loader/base_loader.py`), together with theorems settling the spec's
claims about it.

Modelling conventions:
* Python `float` values are modelled as exact rationals (`Rat`).  The wire
  format stores floats as IEEE-754 binary32; a packed float occupies four
  bytes.  Since no claim under study inspects the numeric content of an
  individual float byte, the four bytes of a packed float are kept symbolic
  (constructor `Byte.f32`), while every integer field is packed into genuine
  little-endian `Byte.raw` bytes, exactly as `struct.pack` does.
* Python `str` values are modelled as their UTF-8 byte sequences
  (`List Nat`); `encode`/`decode` between `str` and `bytes` is the identity
  on that representation.
* Python `int` fields that may be negative (texture-slot indices,
  `material_index`, mesh indices) are modelled as `Int`; counts and lengths
  as `Nat`.
* `struct.pack`/`struct.unpack` raise `struct.error` on out-of-range values,
  wrong tuple arity, or a buffer of the wrong size; fallible operations
  therefore live in `Except`.
-/

namespace ACG

/-- One byte of the binary stream.  `raw n` is an ordinary byte with numeric
value `n % 256`; `f32 x i` is the `i`-th byte (`i < 4`) of the four-byte
IEEE-754 binary32 encoding of the float value `x`.  Float bytes are symbolic:
their numeric value is not modelled, and no theorem below depends on it. -/
inductive Byte where
  | raw : Nat → Byte
  | f32 : Rat → Nat → Byte
deriving DecidableEq

/-- Numeric value of a byte.  The value of a symbolic float byte is not
modelled and is returned as `0`; no result below depends on that choice. -/
def byteVal : Byte → Nat
  | .raw n => n % 256
  | .f32 _ _ => 0

/-- The file magic `b'ACGS'` (`BinarySceneExporter.MAGIC`). -/
def MAGIC_BYTES : List Byte := [.raw 65, .raw 67, .raw 71, .raw 83]

/-- The single supported format version (`BinarySceneExporter.VERSION`). -/
def VERSION : Nat := 1

/-! ## Data model (`data_structures.py`) -/

/-- Vertex data structure (`data_structures.py` lines 10-16). -/
structure Vertex where
  position : List Rat
  normal : List Rat
  texcoord : List Rat
  tangent : List Rat := [0, 0, 0]
deriving DecidableEq

/-- Mesh data structure (`data_structures.py` lines 19-25). -/
structure Mesh where
  name : List Nat
  vertices : List Vertex
  indices : List Int
  material_index : Int := 0
deriving DecidableEq

/-- Clearcoat layer (`data_structures.py` lines 28-36). -/
structure ClearcoatLayer where
  strength : Rat := 0
  roughness : Rat := 0
  ior : Rat := 3/2
  texture_index : Int := -1
  color : List Rat := [1, 1, 1]
  padding : Rat := 0
deriving DecidableEq

/-- Transmission layer (`data_structures.py` lines 39-47). -/
structure TransmissionLayer where
  strength : Rat := 0
  roughness : Rat := 0
  depth : Rat := 0
  texture_index : Int := -1
  color : List Rat := [1, 1, 1]
  padding : Rat := 0
deriving DecidableEq

/-- Sheen layer (`data_structures.py` lines 50-58). -/
structure SheenLayer where
  strength : Rat := 0
  roughness : Rat := 0
  tint : Rat := 0
  texture_index : Int := -1
  color : List Rat := [1, 1, 1]
  padding : Rat := 0
deriving DecidableEq

/-- Subsurface scattering layer (`data_structures.py` lines 61-69). -/
structure SubsurfaceLayer where
  strength : Rat := 0
  radius : Rat := 1
  scale : Rat := 1
  texture_index : Int := -1
  color : List Rat := [1, 1, 1]
  padding : Rat := 0
deriving DecidableEq

/-- Anisotropic reflection layer (`data_structures.py` lines 72-80). -/
structure AnisotropyLayer where
  strength : Rat := 0
  rotation : Rat := 0
  padding0 : Rat := 0
  texture_index : Int := -1
  tangent : List Rat := [1, 0, 0]
  padding1 : Rat := 0
deriving DecidableEq

/-- Thin-film iridescence layer (`data_structures.py` lines 83-90). -/
structure IridescenceLayer where
  strength : Rat := 0
  ior : Rat := 13/10
  thickness : Rat := 400
  texture_index : Int := -1
  padding : List Rat := [0, 0, 0, 0]
deriving DecidableEq

/-- Volume absorption layer (`data_structures.py` lines 93-101). -/
structure VolumeLayer where
  density : Rat := 0
  anisotropy : Rat := 0
  padding0 : Rat := 0
  padding1 : Rat := 0
  absorption_color : List Rat := [1, 1, 1]
  padding2 : Rat := 0
deriving DecidableEq

/-- PBR material with optional advanced layers (`data_structures.py` lines
104-137).  `name` has no default: `Material()` with no arguments raises
`TypeError` in Python, which matters for the importer (see `read_materials`). -/
structure Material where
  name : List Nat
  base_color : List Rat := [4/5, 4/5, 4/5]
  metallic : Rat := 0
  emission : List Rat := [0, 0, 0]
  roughness : Rat := 1/2
  ior : Rat := 3/2
  opacity : Rat := 1
  layer_flags : Nat := 0
  extended_data_index : Nat := 0
  base_color_texture : Int := -1
  normal_texture : Int := -1
  metallic_roughness_texture : Int := -1
  emission_texture : Int := -1
  clearcoat : Option ClearcoatLayer := none
  transmission : Option TransmissionLayer := none
  sheen : Option SheenLayer := none
  subsurface : Option SubsurfaceLayer := none
  anisotropy : Option AnisotropyLayer := none
  iridescence : Option IridescenceLayer := none
  volume : Option VolumeLayer := none
deriving DecidableEq

/-- Truth value of `layer and layer.<field> > 0.0` for an optional layer,
the per-layer test used by `Material.get_layer_flags`. -/
def layerOn {α : Type} (o : Option α) (f : α → Rat) : Bool :=
  match o with
  | some x => decide (0 < f x)
  | none => false

/-- Layer-flags bitmap of the data model (`data_structures.py` lines
139-156, `Material.get_layer_flags`): bit i is set iff the corresponding
layer is present and its strength (density for Volume) exceeds 0, with
Clearcoat = bit 0, Transmission = bit 1, Sheen = bit 2, Subsurface = bit 3,
Anisotropy = bit 4, Iridescence = bit 5, Volume = bit 6. -/
def Material.get_layer_flags (m : Material) : Nat :=
  (if layerOn m.clearcoat (fun c => c.strength) then 1 <<< 0 else 0) |||
  (if layerOn m.transmission (fun t => t.strength) then 1 <<< 1 else 0) |||
  (if layerOn m.sheen (fun s => s.strength) then 1 <<< 2 else 0) |||
  (if layerOn m.subsurface (fun s => s.strength) then 1 <<< 3 else 0) |||
  (if layerOn m.anisotropy (fun a => a.strength) then 1 <<< 4 else 0) |||
  (if layerOn m.iridescence (fun i => i.strength) then 1 <<< 5 else 0) |||
  (if layerOn m.volume (fun v => v.density) then 1 <<< 6 else 0)

/-- Texture metadata (`data_structures.py` lines 159-164). -/
structure Texture where
  path : List Nat
  width : Nat := 0
  height : Nat := 0
deriving DecidableEq

/-- Complete scene data (`data_structures.py` lines 167-172). -/
structure SceneData where
  meshes : List Mesh := []
  materials : List Material := []
  textures : List Texture := []
deriving DecidableEq

/-! ## Encoder (`binary_exporter.py`, `BinarySceneExporter`) -/

/-- Encoding failure.  `structError` stands for Python's `struct.error`,
raised by `struct.pack` on an out-of-range integer or a wrong tuple arity. -/
inductive EncodeErr where
  | structError
deriving DecidableEq

/-- Four symbolic bytes of `struct.pack('f', x)` (IEEE-754 binary32,
little-endian; total, as `struct.pack('f', ...)` accepts every float). -/
def packF32 (x : Rat) : List Byte :=
  [.f32 x 0, .f32 x 1, .f32 x 2, .f32 x 3]

/-- Little-endian byte split of an unsigned 32-bit value. -/
def packU32 (n : Nat) : List Byte :=
  [.raw (n % 256), .raw (n / 256 % 256), .raw (n / 65536 % 256),
    .raw (n / 16777216 % 256)]

/-- Model of `struct.pack('I', n)` for a nonnegative count: fails with
`struct.error` when the value does not fit in 32 bits. -/
def packU32E (n : Nat) : Except EncodeErr (List Byte) :=
  if n < 4294967296 then .ok (packU32 n) else .error .structError

/-- Model of `struct.pack('I', i)` for a Python `int` that could be
negative: `struct.error` outside `[0, 2^32)`. -/
def packU32IntE (i : Int) : Except EncodeErr (List Byte) :=
  if 0 ≤ i ∧ i < 4294967296 then .ok (packU32 i.toNat) else .error .structError

/-- Model of `struct.pack('i', i)`: two's-complement little-endian bytes,
`struct.error` outside `[-2^31, 2^31)`. -/
def packI32E (i : Int) : Except EncodeErr (List Byte) :=
  if -2147483648 ≤ i ∧ i < 2147483648 then
    .ok (packU32 (i.emod 4294967296).toNat)
  else .error .structError

/-- Model of `struct.pack('3f', *xs)`: `struct.error` unless the argument
tuple has exactly three elements. -/
def pack3f (xs : List Rat) : Except EncodeErr (List Byte) :=
  if xs.length = 3 then .ok (xs.flatMap packF32) else .error .structError

/-- Model of `struct.pack('2f', *xs)`: `struct.error` unless the argument
tuple has exactly two elements. -/
def pack2f (xs : List Rat) : Except EncodeErr (List Byte) :=
  if xs.length = 2 then .ok (xs.flatMap packF32) else .error .structError

/-- UTF-8 bytes of a string written to the stream (`name.encode('utf-8')`);
strings are already modelled as their byte sequences. -/
def encodeStr (s : List Nat) : List Byte := s.map Byte.raw

/-- Helper `to_texture_index` of `BinarySceneExporter._write_materials`
(`binary_exporter.py` lines 52-55).  On integer-typed fields the `None` and
non-numeric branches are vacuous, so it is the identity with the `-1`
sentinel preserved. -/
def to_texture_index (v : Int) : Int :=
  if v = -1 then -1 else v

/-- Layer-flags word the exporter actually writes (`binary_exporter.py`
lines 64-72): bit 0 for a present Transmission layer, bit 1 for a present
Clearcoat layer, bit 2 for a present Sheen layer.  A present layer object is
always truthy in Python, so no strength test is involved, and
`Material.get_layer_flags` is never consulted. -/
def exporterLayerFlags (m : Material) : Nat :=
  (if m.transmission.isSome then 1 else 0) |||
  (if m.clearcoat.isSome then 2 else 0) |||
  (if m.sheen.isSome then 4 else 0)

/-- Extension-layer bytes of a material record (`binary_exporter.py` lines
74-77): when a Transmission layer object is present — `if mat.transmission:`
tests mere presence, a layer object being always truthy — a two-float block
of the layer's strength and the material's ior; nothing otherwise, and
nothing for any other layer. -/
def writeTransmissionExt (m : Material) : Except EncodeErr (List Byte) :=
  match m.transmission with
  | some t => pack2f [t.strength, m.ior]
  | none => pure []

/-- Byte output of one material record (`binary_exporter.py` lines 36-77):
name length and bytes, base_color, emission, metallic, roughness, ior,
opacity, four `i32` texture slots, the exporter's layer-flags word, and the
extension bytes of `writeTransmissionExt`. -/
def writeMaterial (m : Material) : Except EncodeErr (List Byte) := do
  let nameLen ← packU32E m.name.length
  let cb ← pack3f m.base_color
  let em ← pack3f m.emission
  let t0 ← packI32E (to_texture_index m.base_color_texture)
  let t1 ← packI32E (to_texture_index m.normal_texture)
  let t2 ← packI32E (to_texture_index m.metallic_roughness_texture)
  let t3 ← packI32E (to_texture_index m.emission_texture)
  let flags ← packU32E (exporterLayerFlags m)
  let ext ← writeTransmissionExt m
  return nameLen ++ encodeStr m.name ++ cb ++ em ++
    packF32 m.metallic ++ packF32 m.roughness ++ packF32 m.ior ++
    packF32 m.opacity ++ t0 ++ t1 ++ t2 ++ t3 ++ flags ++ ext

/-- Sequential material records, in list order (loop of `_write_materials`). -/
def writeMaterialList : List Material → Except EncodeErr (List Byte)
  | [] => .ok []
  | m :: ms => do
    let r ← writeMaterial m
    let rs ← writeMaterialList ms
    return r ++ rs

/-- Materials section: count then records (`_write_materials`). -/
def writeMaterials (ms : List Material) : Except EncodeErr (List Byte) := do
  let c ← packU32E ms.length
  let rs ← writeMaterialList ms
  return c ++ rs

/-- One texture entry: path length then path bytes (`_write_textures`). -/
def writeTexture (t : Texture) : Except EncodeErr (List Byte) := do
  let l ← packU32E t.path.length
  return l ++ encodeStr t.path

/-- Sequential texture entries (loop of `_write_textures`). -/
def writeTextureList : List Texture → Except EncodeErr (List Byte)
  | [] => .ok []
  | t :: ts => do
    let r ← writeTexture t
    let rs ← writeTextureList ts
    return r ++ rs

/-- Textures section: count then entries (`_write_textures`). -/
def writeTextures (ts : List Texture) : Except EncodeErr (List Byte) := do
  let c ← packU32E ts.length
  let rs ← writeTextureList ts
  return c ++ rs

/-- Byte output of one vertex (`binary_exporter.py` lines 107-116):
position 3 floats, normal 3 floats, texcoord 2 floats, tangent 3 floats. -/
def writeVertex (v : Vertex) : Except EncodeErr (List Byte) := do
  let p ← pack3f v.position
  let n ← pack3f v.normal
  let t ← pack2f v.texcoord
  let tg ← pack3f v.tangent
  return p ++ n ++ t ++ tg

/-- Sequential vertex records (per-vertex loop of `_write_meshes`). -/
def writeVertexList : List Vertex → Except EncodeErr (List Byte)
  | [] => .ok []
  | v :: vs => do
    let r ← writeVertex v
    let rs ← writeVertexList vs
    return r ++ rs

/-- Index block bytes: `struct.pack('{n}I', *indices)` packs every index as
an unsigned 32-bit value. -/
def writeIndexList : List Int → Except EncodeErr (List Byte)
  | [] => .ok []
  | i :: is => do
    let r ← packU32IntE i
    let rs ← writeIndexList is
    return r ++ rs

/-- Byte output of one mesh (`binary_exporter.py` lines 96-120): name
length and bytes, `material_index` as `u32`, vertex count and vertex block,
index count and index block. -/
def writeMesh (m : Mesh) : Except EncodeErr (List Byte) := do
  let nameLen ← packU32E m.name.length
  let matIdx ← packU32IntE m.material_index
  let vc ← packU32E m.vertices.length
  let vb ← writeVertexList m.vertices
  let ic ← packU32E m.indices.length
  let ib ← writeIndexList m.indices
  return nameLen ++ encodeStr m.name ++ matIdx ++ vc ++ vb ++ ic ++ ib

/-- Sequential mesh records (loop of `_write_meshes`). -/
def writeMeshList : List Mesh → Except EncodeErr (List Byte)
  | [] => .ok []
  | m :: ms => do
    let r ← writeMesh m
    let rs ← writeMeshList ms
    return r ++ rs

/-- Meshes section: count then records (`_write_meshes`). -/
def writeMeshes (ms : List Mesh) : Except EncodeErr (List Byte) := do
  let c ← packU32E ms.length
  let rs ← writeMeshList ms
  return c ++ rs

/-- File header: magic then version (`_write_header`). -/
def writeHeader : List Byte := MAGIC_BYTES ++ packU32 VERSION

/-- Whole-file encoder (`BinarySceneExporter.export`; `export` is a Lean
keyword, hence the name): header, materials section, textures section,
meshes section, in that order. -/
def exportScene (s : SceneData) : Except EncodeErr (List Byte) := do
  let ms ← writeMaterials s.materials
  let ts ← writeTextures s.textures
  let hs ← writeMeshes s.meshes
  return writeHeader ++ ms ++ ts ++ hs

/-! ## Decoder (`binary_exporter.py`, `BinarySceneImporter`)

The importer's failures mirror the Python exceptions: `badMagic` and
`unsupportedVersion` are the two `ValueError`s of `load` (distinct message
texts, each interpolating the offending value), `structError` is
`struct.error` from `struct.unpack` on a short buffer, and `typeError` is
the `TypeError` raised by calling a dataclass constructor without its
required arguments. -/

/-- Decoding failure kinds, one per distinct Python exception site. -/
inductive DecodeErr where
  | badMagic (magic : List Byte)
  | unsupportedVersion (version : Nat)
  | structError
  | typeError
deriving DecidableEq

/-- Model of `struct.unpack('I', f.read(4))`: consumes four bytes and
assembles their little-endian value; `struct.error` when fewer than four
bytes remain. -/
def unpackU32 (s : List Byte) : Except DecodeErr (Nat × List Byte) :=
  match s with
  | b0 :: b1 :: b2 :: b3 :: rest =>
    .ok (byteVal b0 + 256 * byteVal b1 + 65536 * byteVal b2 +
      16777216 * byteVal b3, rest)
  | _ => .error .structError

/-- Model of `struct.unpack('i', ...)` for one signed 32-bit value. -/
def unpackI32 (s : List Byte) : Except DecodeErr (Int × List Byte) := do
  let (n, rest) ← unpackU32 s
  if n < 2147483648 then return ((n : Int), rest)
  else return ((n : Int) - 4294967296, rest)

/-- Float value recovered from a four-byte group.  For the symbolic float
chunks the encoder produces this is the encoded value; the value read from
raw bytes is not modelled (returned as `0`). -/
def f32val (s : List Byte) : Rat :=
  match s with
  | .f32 x _ :: _ => x
  | _ => 0

/-- Model of `struct.unpack('f', f.read(4))`: consumes four bytes;
`struct.error` when fewer remain. -/
def unpackF32 (s : List Byte) : Except DecodeErr (Rat × List Byte) :=
  if 4 ≤ s.length then .ok (f32val (s.take 4), s.drop 4)
  else .error .structError

/-- Model of `struct.unpack('3f', f.read(12))`. -/
def unpack3f (s : List Byte) : Except DecodeErr (List Rat × List Byte) := do
  let (a, s) ← unpackF32 s
  let (b, s) ← unpackF32 s
  let (c, s) ← unpackF32 s
  return ([a, b, c], s)

/-- Model of `struct.unpack('4i', f.read(16))`. -/
def unpack4i (s : List Byte) : Except DecodeErr (List Int × List Byte) := do
  let (a, s) ← unpackI32 s
  let (b, s) ← unpackI32 s
  let (c, s) ← unpackI32 s
  let (d, s) ← unpackI32 s
  return ([a, b, c, d], s)

/-- String recovered from stream bytes (`f.read(n).decode('utf-8')`),
as its byte sequence.  Like Python's `f.read`, a short read returns the
available bytes without error. -/
def strOfBytes (bs : List Byte) : List Nat := bs.map byteVal

/-- Per-iteration body of the `_read_materials` loop (`binary_exporter.py`
lines 152-175).  The first statement of the body is `mat = Material()`,
which Python rejects with `TypeError` (the `Material` dataclass has the
required field `name`), so any positive count fails before a single record
byte is read. -/
def read_materials_loop :
    Nat → List Byte → Except DecodeErr (List Material × List Byte)
  | 0, s => .ok ([], s)
  | _ + 1, _ => .error .typeError

/-- Materials section reader (`_read_materials`): count, then the loop. -/
def read_materials (s : List Byte) :
    Except DecodeErr (List Material × List Byte) := do
  let (count, s) ← unpackU32 s
  read_materials_loop count s

/-- Fields read by one iteration of the `_read_materials` loop
(`binary_exporter.py` lines 156-172), in read order.  `tex_indices` holds
all four unpacked `i32` values, of which the Python code keeps only index 0
(`base_color_texture`); `flags` is the layer-flags word, after which the
code reads nothing (the line `# 读取扩展层...` is only a comment). -/
structure MaterialFields where
  name : List Nat
  base_color : List Rat
  emission : List Rat
  metallic : Rat
  roughness : Rat
  ior : Rat
  opacity : Rat
  tex_indices : List Int
  flags : Nat
deriving DecidableEq

/-- Record-field reads of the `_read_materials` loop body
(`binary_exporter.py` lines 156-172).  In the Python source these lines are
unreachable — `Material()` on line 153 raises `TypeError` first — but they
are the code C3 speaks about, so they are embedded as written: name length
and bytes, 3f base_color, 3f emission, f metallic, f roughness, f ior,
f opacity, 4i texture slots, u32 flags, and no extension-block read. -/
def readMaterialFields (s : List Byte) :
    Except DecodeErr (MaterialFields × List Byte) := do
  let (name_len, s) ← unpackU32 s
  let name := strOfBytes (s.take name_len)
  let s := s.drop name_len
  let (base_color, s) ← unpack3f s
  let (emission, s) ← unpack3f s
  let (metallic, s) ← unpackF32 s
  let (roughness, s) ← unpackF32 s
  let (ior, s) ← unpackF32 s
  let (opacity, s) ← unpackF32 s
  let (tex_indices, s) ← unpack4i s
  let (flags, s) ← unpackU32 s
  return ({ name := name, base_color := base_color, emission := emission,
            metallic := metallic, roughness := roughness, ior := ior,
            opacity := opacity, tex_indices := tex_indices,
            flags := flags }, s)

/-- Per-iteration body of the `_read_textures` loop (`binary_exporter.py`
lines 184-187): path length, then path bytes (a short read truncates
silently, as `f.read` does). -/
def read_textures_loop :
    Nat → List Byte → Except DecodeErr (List (List Nat) × List Byte)
  | 0, s => .ok ([], s)
  | n + 1, s => do
    let (path_len, s) ← unpackU32 s
    let path := strOfBytes (s.take path_len)
    let s := s.drop path_len
    let (rest, s) ← read_textures_loop n s
    return (path :: rest, s)

/-- Textures section reader (`_read_textures`). -/
def read_textures (s : List Byte) :
    Except DecodeErr (List (List Nat) × List Byte) := do
  let (count, s) ← unpackU32 s
  read_textures_loop count s

/-- Per-iteration body of the `_read_meshes` loop (`binary_exporter.py`
lines 196-225).  The first statement is `mesh = Mesh()`, rejected with
`TypeError` (the `Mesh` dataclass requires `name`, `vertices` and
`indices`), so any positive count fails before a single record byte is
read. -/
def read_meshes_loop :
    Nat → List Byte → Except DecodeErr (List Mesh × List Byte)
  | 0, s => .ok ([], s)
  | _ + 1, _ => .error .typeError

/-- Meshes section reader (`_read_meshes`). -/
def read_meshes (s : List Byte) :
    Except DecodeErr (List Mesh × List Byte) := do
  let (count, s) ← unpackU32 s
  read_meshes_loop count s

/-- Whole-file decoder (`BinarySceneImporter.load`): magic check
(`ValueError` interpolating the read bytes on mismatch), version check
(`ValueError` interpolating the read version when it is not `VERSION`),
then the materials, textures and meshes sections.  Python stores the bare
path strings in `scene.textures`; here each is wrapped as a `Texture` whose
only populated field is `path`.  Trailing bytes are ignored, as in the
source. -/
def load (s : List Byte) : Except DecodeErr SceneData :=
  let magic := s.take 4
  let s1 := s.drop 4
  if magic ≠ MAGIC_BYTES then .error (.badMagic magic)
  else do
    let (version, s2) ← unpackU32 s1
    if version ≠ VERSION then .error (.unsupportedVersion version)
    else do
      let (mats, s3) ← read_materials s2
      let (texs, s4) ← read_textures s3
      let (meshes, _s5) ← read_meshes s4
      return { meshes := meshes, materials := mats,
               textures := texs.map (fun p => { path := p }) }

/-! ## Scene validation (`base_loader.py`, `BaseLoader.validate_scene`) -/

/-- Default material injected by validation, `Material(name="Default")`
(`base_loader.py` line 128); the name bytes spell "Default". -/
def defaultMaterial : Material :=
  { name := [68, 101, 102, 97, 117, 108, 116] }

/-- Scene validation (`base_loader.py` lines 112-145).  Python mutates
`self.scene`; this is modelled by returning the boolean result together
with the possibly-mutated scene.  Steps, in source order: a scene with no
meshes is rejected; an empty materials list gets a default material
appended; a mesh whose `material_index` is at least the number of
materials (the `>=` comparison of line 133, checked against the
post-append list) causes rejection; otherwise the scene is accepted. -/
def validate_scene (s : SceneData) : Bool × SceneData :=
  if s.meshes = [] then (false, s)
  else
    let s2 := if s.materials = [] then
                { s with materials := s.materials ++ [defaultMaterial] }
              else s
    if s2.meshes.all
        (fun m => decide (m.material_index < (s2.materials.length : Int))) then
      (true, s2)
    else (false, s2)

/-! ## Well-formedness (the data-model invariants of spec section 3)

Field-width bounds come from the wire layout (counts and lengths are `u32`,
texture slots are `i32`, indices are `u32`); the structural bounds
(coordinate arities, `material_index` in range, index values below the
vertex count, triangle-list length) come from section 3 and section 6 of
the spec. -/

/-- Well-formed vertex: coordinate lists have the §3 arities. -/
abbrev VertexWF (v : Vertex) : Prop :=
  v.position.length = 3 ∧ v.normal.length = 3 ∧
  v.texcoord.length = 2 ∧ v.tangent.length = 3

/-- Well-formed texture slot: the `-1` sentinel or a nonnegative index,
representable as `i32`. -/
abbrev TexSlotWF (i : Int) : Prop :=
  -1 ≤ i ∧ i < 2147483648

/-- Well-formed material: encodable name length, §3 color arities,
representable texture slots. -/
abbrev MaterialWF (m : Material) : Prop :=
  m.name.length < 4294967296 ∧
  m.base_color.length = 3 ∧ m.emission.length = 3 ∧
  TexSlotWF m.base_color_texture ∧ TexSlotWF m.normal_texture ∧
  TexSlotWF m.metallic_roughness_texture ∧ TexSlotWF m.emission_texture

/-- Well-formed mesh relative to the scene's material count: encodable
name and counts, nonnegative in-range `material_index`, well-formed
vertices, triangle-list index count, index values below the vertex count. -/
abbrev MeshWF (nmats : Nat) (m : Mesh) : Prop :=
  m.name.length < 4294967296 ∧
  0 ≤ m.material_index ∧ m.material_index < (nmats : Int) ∧
  m.vertices.length < 4294967296 ∧ (∀ v ∈ m.vertices, VertexWF v) ∧
  m.indices.length < 4294967296 ∧ m.indices.length % 3 = 0 ∧
  ∀ i ∈ m.indices, 0 ≤ i ∧ i < (m.vertices.length : Int)

/-- Well-formed texture: encodable path length. -/
abbrev TextureWF (t : Texture) : Prop :=
  t.path.length < 4294967296

/-- Well-formed scene per §3: encodable section counts, at least one
material, and well-formed members throughout. -/
abbrev SceneWF (s : SceneData) : Prop :=
  s.materials.length < 4294967296 ∧ s.textures.length < 4294967296 ∧
  s.meshes.length < 4294967296 ∧ s.materials ≠ [] ∧
  (∀ m ∈ s.materials, MaterialWF m) ∧ (∀ t ∈ s.textures, TextureWF t) ∧
  ∀ m ∈ s.meshes, MeshWF s.materials.length m

/-! ## Concrete sample values used by witnesses and counterexamples -/

/-- Material named "m" with a Transmission layer of strength 1/2. -/
def matTransHalf : Material :=
  { name := [109], transmission := some { strength := 1/2 } }

/-- Material named "m" with a Transmission layer of strength 0 (the layer
object is present, all fields at their defaults). -/
def matTransZero : Material :=
  { name := [109], transmission := some {} }

/-- Sample vertex at the origin. -/
def sampleVertex : Vertex :=
  { position := [0, 0, 0], normal := [0, 0, 1], texcoord := [0, 0] }

/-- Sample one-triangle mesh named "g" over a single vertex. -/
def sampleMesh : Mesh :=
  { name := [103], vertices := [sampleVertex], indices := [0, 0, 0],
    material_index := 0 }

/-- Sample texture with path "t". -/
def sampleTexture : Texture := { path := [116] }

/-- Sample §3-conforming scene: one material (with a Transmission layer of
strength 1/2), one texture, one mesh. -/
def sampleScene : SceneData :=
  { meshes := [sampleMesh], materials := [matTransHalf],
    textures := [sampleTexture] }

/-- Byte stream the encoder produces for `sampleScene`. -/
def sampleBytes : List Byte := (exportScene sampleScene).toOption.getD []

/-- Byte output of the encoder for the material record of `matTransHalf`. -/
def recTransHalf : List Byte := (writeMaterial matTransHalf).toOption.getD []

/-- C6's failing input: a valid 8-byte header, a materials count of 1, and
no further bytes. -/
def c6bytes : List Byte := writeHeader ++ packU32 1

/-- Byte output of the encoder for the material record of `matTransZero`. -/
def recTransZero : List Byte := (writeMaterial matTransZero).toOption.getD []

/-- Two-vertex list used to check the 88-byte vertex block. -/
def twoVertices : List Vertex := [sampleVertex, sampleVertex]

/-- Byte output of the encoder for `twoVertices`. -/
def twoVertexBytes : List Byte := (writeVertexList twoVertices).toOption.getD []

/-- Three-index list used to check the 12-byte index block. -/
def threeIndices : List Int := [0, 0, 0]

/-- Byte output of the encoder for `threeIndices`. -/
def threeIndexBytes : List Byte := (writeIndexList threeIndices).toOption.getD []

/-- Scene with one mesh and one material, already valid. -/
def sceneOk : SceneData :=
  { meshes := [sampleMesh], materials := [defaultMaterial] }

/-- Scene with one mesh and no materials. -/
def sceneNoMat : SceneData := { meshes := [sampleMesh] }

/-- Mesh referencing the out-of-range material index 5. -/
def badMesh : Mesh :=
  { name := [98], vertices := [sampleVertex], indices := [0, 0, 0],
    material_index := 5 }

/-- Scene whose only mesh references an out-of-range material index. -/
def sceneBad : SceneData :=
  { meshes := [badMesh], materials := [defaultMaterial] }

/-- Stream with correct header and all three section counts zero. -/
def emptySectionBytes : List Byte :=
  MAGIC_BYTES ++ packU32 VERSION ++ packU32 0 ++ packU32 0 ++ packU32 0

/-- Material named "m" with a Clearcoat layer of strength 1 and no other
layers; its encoded record carries layer-flags word 2 and no extension
block. -/
def matClearOnly : Material :=
  { name := [109], clearcoat := some { strength := 1 } }

/-- Byte output of the encoder for the material record of `matClearOnly`. -/
def recClearOnly : List Byte := (writeMaterial matClearOnly).toOption.getD []

/-- Field values the record reader recovers from `recTransHalf`. -/
def fieldsTransHalf : MaterialFields :=
  { name := [109], base_color := [4/5, 4/5, 4/5], emission := [0, 0, 0],
    metallic := 0, roughness := 1/2, ior := 3/2, opacity := 1,
    tex_indices := [-1, -1, -1, -1], flags := 1 }

/-- Field values the record reader recovers from `recClearOnly`. -/
def fieldsClearOnly : MaterialFields :=
  { name := [109], base_color := [4/5, 4/5, 4/5], emission := [0, 0, 0],
    metallic := 0, roughness := 1/2, ior := 3/2, opacity := 1,
    tex_indices := [-1, -1, -1, -1], flags := 2 }

/-! ## Helper lemmas -/

theorem except_bind_ok {α β ε : Type} (a : α) (f : α → Except ε β) :
    (Except.ok a : Except ε α) >>= f = f a := rfl

theorem except_bind_error {α β ε : Type} (e : ε) (f : α → Except ε β) :
    (Except.error e : Except ε α) >>= f = Except.error e := rfl

theorem except_map_ok {α β ε : Type} (a : α) (f : α → β) :
    f <$> (Except.ok a : Except ε α) = Except.ok (f a) := rfl

theorem except_map_error {α β ε : Type} (e : ε) (f : α → β) :
    f <$> (Except.error e : Except ε α) = Except.error e := rfl

theorem packU32_length (n : Nat) : (packU32 n).length = 4 := rfl

theorem packF32_length (x : Rat) : (packF32 x).length = 4 := rfl

theorem encodeStr_length (s : List Nat) : (encodeStr s).length = s.length :=
  List.length_map s Byte.raw

theorem flatMap_packF32_length (xs : List Rat) :
    (xs.flatMap packF32).length = 4 * xs.length := by
  induction xs with
  | nil => rfl
  | cons x xs ih =>
    simp only [List.flatMap_cons, List.length_append, ih, packF32_length,
      List.length_cons]
    omega

theorem packU32E_ok_iff {n : Nat} {bs : List Byte} :
    packU32E n = .ok bs ↔ n < 4294967296 ∧ bs = packU32 n := by
  unfold packU32E
  split <;> simp_all [eq_comm]

theorem packU32IntE_ok_iff {i : Int} {bs : List Byte} :
    packU32IntE i = .ok bs ↔
      (0 ≤ i ∧ i < 4294967296) ∧ bs = packU32 i.toNat := by
  unfold packU32IntE
  split <;> simp_all [eq_comm]

theorem packI32E_ok_iff {i : Int} {bs : List Byte} :
    packI32E i = .ok bs ↔
      (-2147483648 ≤ i ∧ i < 2147483648) ∧
        bs = packU32 (i.emod 4294967296).toNat := by
  unfold packI32E
  split <;> simp_all [eq_comm]

theorem pack3f_ok_iff {xs : List Rat} {bs : List Byte} :
    pack3f xs = .ok bs ↔ xs.length = 3 ∧ bs = xs.flatMap packF32 := by
  unfold pack3f
  split <;> simp_all [eq_comm]

theorem pack2f_ok_iff {xs : List Rat} {bs : List Byte} :
    pack2f xs = .ok bs ↔ xs.length = 2 ∧ bs = xs.flatMap packF32 := by
  unfold pack2f
  split <;> simp_all [eq_comm]

theorem unpackU32_packU32 (v : Nat) (h : v < 4294967296) (rest : List Byte) :
    unpackU32 (packU32 v ++ rest) = .ok (v, rest) := by
  simp only [packU32, List.cons_append, List.nil_append, unpackU32, byteVal]
  refine congrArg Except.ok (Prod.ext ?_ rfl)
  show v % 256 % 256 + 256 * (v / 256 % 256 % 256) +
    65536 * (v / 65536 % 256 % 256) + 16777216 * (v / 16777216 % 256 % 256) = v
  omega

/-! ## Claim theorems -/

/-- C1 (code bug): the encode/decode round trip of the spec does not exist
in the code.  For the §3-conforming `sampleScene` (one material with a
Transmission layer, one texture, one mesh) the encoder succeeds and
produces a non-empty stream, but decoding that very stream raises
`TypeError` — `BinarySceneImporter._read_materials` constructs `Material()`
without the required `name` argument — instead of returning a scene with
the original geometry, material fields and texture paths. -/
theorem roundtrip_crashes_on_sample_scene :
    exportScene sampleScene = .ok sampleBytes ∧ sampleBytes ≠ [] ∧
    load sampleBytes = .error .typeError :=
  ⟨rfl, by decide, rfl⟩

/-- C2 (code bug): the layer-flags word written into the encoded record is
computed by `_write_materials` itself (Transmission = bit 0, Clearcoat =
bit 1, Sheen = bit 2, set on mere presence), not by
`Material.get_layer_flags` (Clearcoat = bit 0, Transmission = bit 1, …,
set only when strength exceeds 0) as the claim states.  For a material
whose Transmission layer has strength 1/2 the record carries flags 1 (bit
1 clear), while `get_layer_flags` yields 2 as the claim demands; with
strength 0 the record still carries flags 1, while `get_layer_flags`
yields 0. -/
theorem exporter_flags_contradict_layer_calculator :
    exporterLayerFlags matTransHalf = 1 ∧
    Material.get_layer_flags matTransHalf = 2 ∧
    exporterLayerFlags matTransZero = 1 ∧
    Material.get_layer_flags matTransZero = 0 :=
  ⟨rfl, by simp [Material.get_layer_flags, layerOn, matTransHalf], rfl,
    by simp [Material.get_layer_flags, layerOn, matTransZero]⟩

/-- C3 (code bug): the decoder never consumes a Transmission extension
block.  Decoding a stream holding one material record fails with
`TypeError` before any field is read; and the record-field reads of the
`_read_materials` loop body (embedded as `readMaterialFields`) stop right
after the flags word: on the record of `matTransHalf` (flags 1, extension
present) they leave the read cursor at the start of the two-float
extension block instead of past it, and on the record of `matClearOnly`
(flags 2, no extension) they consume exactly the same fields — consumption
is independent of the flags value. -/
theorem decoder_never_consumes_extension_block :
    load (writeHeader ++ packU32 1 ++ recTransHalf) = .error .typeError ∧
    readMaterialFields recTransHalf =
      .ok (fieldsTransHalf, packF32 (1/2) ++ packF32 (3/2)) ∧
    readMaterialFields recClearOnly = .ok (fieldsClearOnly, []) :=
  ⟨rfl, rfl, rfl⟩

/-- C4 (counterexample): `matTransZero` has a Transmission layer of
strength 0, so by the claim no extension bytes may be emitted and its
record would be the 65 base bytes (64 + one name byte); the encoder
nevertheless emits a 73-byte record whose final 8 bytes are the extension
block holding the layer strength 0 and the material ior 3/2. -/
theorem ext_block_written_for_zero_strength :
    writeMaterial matTransZero = .ok recTransZero ∧
    recTransZero.length = 73 ∧
    recTransZero.drop 65 = packF32 0 ++ packF32 (3/2) :=
  ⟨rfl, rfl, rfl⟩

/-- C6 (code bug): a valid 8-byte header followed by a materials count of
1 and zero further bytes does not fail with a `Truncated` decode error —
the decoder has no such error kind — but with the unrelated `TypeError`
raised by `Material()` before the record (or the end of the stream) is
even examined. -/
theorem truncated_stream_raises_type_error :
    load c6bytes = .error .typeError := rfl

/-- C4 (amended): whenever the encoder succeeds on a material, the emitted
record consists of the 64 fixed base bytes plus the name bytes, followed —
exactly when a Transmission layer object is present, whatever its strength
— by the two-float extension block holding the layer's strength and then
the material's ior; no other layer adds bytes (the record length depends on
nothing else). -/
theorem writeMaterial_ext_iff_transmission_present :
    ∀ (m : Material) (bs : List Byte), writeMaterial m = .ok bs →
      (m.transmission = none → bs.length = 64 + m.name.length) ∧
      (∀ t, m.transmission = some t →
        bs.length = 72 + m.name.length ∧
        bs.drop (64 + m.name.length) = packF32 t.strength ++ packF32 m.ior) := by
  intro m bs h
  unfold writeMaterial at h
  cases h1 : packU32E m.name.length <;> rw [h1] at h
  case error => simp [except_bind_error] at h
  case ok nameLen =>
  obtain ⟨-, rfl⟩ := packU32E_ok_iff.mp h1
  rw [except_bind_ok] at h
  cases h2 : pack3f m.base_color <;> rw [h2] at h
  case error => simp [except_bind_error] at h
  case ok cb =>
  obtain ⟨hcb, rfl⟩ := pack3f_ok_iff.mp h2
  rw [except_bind_ok] at h
  cases h3 : pack3f m.emission <;> rw [h3] at h
  case error => simp [except_bind_error] at h
  case ok em =>
  obtain ⟨hem, rfl⟩ := pack3f_ok_iff.mp h3
  rw [except_bind_ok] at h
  cases h4 : packI32E (to_texture_index m.base_color_texture) <;> rw [h4] at h
  case error => simp [except_bind_error] at h
  case ok t0 =>
  obtain ⟨-, rfl⟩ := packI32E_ok_iff.mp h4
  rw [except_bind_ok] at h
  cases h5 : packI32E (to_texture_index m.normal_texture) <;> rw [h5] at h
  case error => simp [except_bind_error] at h
  case ok t1 =>
  obtain ⟨-, rfl⟩ := packI32E_ok_iff.mp h5
  rw [except_bind_ok] at h
  cases h6 : packI32E (to_texture_index m.metallic_roughness_texture) <;>
    rw [h6] at h
  case error => simp [except_bind_error] at h
  case ok t2 =>
  obtain ⟨-, rfl⟩ := packI32E_ok_iff.mp h6
  rw [except_bind_ok] at h
  cases h7 : packI32E (to_texture_index m.emission_texture) <;> rw [h7] at h
  case error => simp [except_bind_error] at h
  case ok t3 =>
  obtain ⟨-, rfl⟩ := packI32E_ok_iff.mp h7
  rw [except_bind_ok] at h
  cases h8 : packU32E (exporterLayerFlags m) <;> rw [h8] at h
  case error => simp [except_bind_error] at h
  case ok fl =>
  obtain ⟨-, rfl⟩ := packU32E_ok_iff.mp h8
  rw [except_bind_ok] at h
  cases h9 : writeTransmissionExt m <;> rw [h9] at h
  case error => simp [except_bind_error, except_map_error] at h
  case ok ext =>
  simp only [except_bind_ok, except_map_ok, pure, Except.pure,
    Except.ok.injEq] at h
  subst h
  cases ht : m.transmission with
  | none =>
    rw [writeTransmissionExt, ht] at h9
    simp only [pure, Except.pure, Except.ok.injEq] at h9
    subst h9
    refine ⟨fun _ => ?_, fun t hts => Option.noConfusion hts⟩
    simp only [List.length_append, packU32_length, encodeStr_length,
      flatMap_packF32_length, packF32_length, List.length_nil, hcb, hem]
    omega
  | some t =>
    rw [writeTransmissionExt, ht] at h9
    obtain ⟨-, rfl⟩ := pack2f_ok_iff.mp h9
    have hext : ([t.strength, m.ior].flatMap packF32) =
        packF32 t.strength ++ packF32 m.ior := by
      simp [List.flatMap_cons, List.flatMap_nil]
    refine ⟨fun hn => Option.noConfusion hn, fun t2 hts => ?_⟩
    injection hts with h12
    subst h12
    constructor
    · simp only [List.length_append, packU32_length, encodeStr_length,
        flatMap_packF32_length, packF32_length, hcb, hem, hext,
        List.length_cons, List.length_nil]
      omega
    · have hfront :
          packU32 m.name.length ++ encodeStr m.name ++
            m.base_color.flatMap packF32 ++ m.emission.flatMap packF32 ++
            packF32 m.metallic ++ packF32 m.roughness ++ packF32 m.ior ++
            packF32 m.opacity ++
            packU32 ((to_texture_index m.base_color_texture).emod
              4294967296).toNat ++
            packU32 ((to_texture_index m.normal_texture).emod
              4294967296).toNat ++
            packU32 ((to_texture_index m.metallic_roughness_texture).emod
              4294967296).toNat ++
            packU32 ((to_texture_index m.emission_texture).emod
              4294967296).toNat ++
            packU32 (exporterLayerFlags m) ++
            [t.strength, m.ior].flatMap packF32 =
          (packU32 m.name.length ++ encodeStr m.name ++
            m.base_color.flatMap packF32 ++ m.emission.flatMap packF32 ++
            packF32 m.metallic ++ packF32 m.roughness ++ packF32 m.ior ++
            packF32 m.opacity ++
            packU32 ((to_texture_index m.base_color_texture).emod
              4294967296).toNat ++
            packU32 ((to_texture_index m.normal_texture).emod
              4294967296).toNat ++
            packU32 ((to_texture_index m.metallic_roughness_texture).emod
              4294967296).toNat ++
            packU32 ((to_texture_index m.emission_texture).emod
              4294967296).toNat ++
            packU32 (exporterLayerFlags m)) ++
            [t.strength, m.ior].flatMap packF32 := by
        simp [List.append_assoc]
      rw [hfront, List.drop_left', hext]
      simp only [List.length_append, packU32_length, encodeStr_length,
        flatMap_packF32_length, packF32_length, hcb, hem]
      omega

/-- Witness for C4's amended theorem at `matTransHalf`: its 73-byte record
ends with the extension block for strength 1/2 and ior 3/2. -/
theorem writeMaterial_ext_present_witness :
    recTransHalf.length = 72 + matTransHalf.name.length ∧
    recTransHalf.drop (64 + matTransHalf.name.length) =
      packF32 (1/2) ++ packF32 matTransHalf.ior := by
  have h := (writeMaterial_ext_iff_transmission_present matTransHalf
    recTransHalf rfl).2 { strength := 1/2 } rfl
  simpa using h

/-- C5: decoding any stream whose first four bytes are not "ACGS" fails
with the bad-magic error (a `ValueError` interpolating the offending
bytes), before anything else is read; decoding a stream with correct magic
whose version field is any value other than 1 — 999 included — fails with
the unsupported-version error (a `ValueError` interpolating the version),
whatever bytes follow, so no partial decode is attempted; and the two
failure values are distinct, so a caller can tell them apart. -/
theorem load_distinguishes_bad_magic_and_version :
    (∀ s : List Byte, s.take 4 ≠ MAGIC_BYTES →
      load s = .error (.badMagic (s.take 4))) ∧
    (∀ (v : Nat) (rest : List Byte), v < 4294967296 → v ≠ VERSION →
      load (MAGIC_BYTES ++ (packU32 v ++ rest)) =
        .error (.unsupportedVersion v)) ∧
    (∀ (m : List Byte) (v : Nat),
      DecodeErr.badMagic m ≠ DecodeErr.unsupportedVersion v) := by
  refine ⟨?_, ?_, fun m v h => DecodeErr.noConfusion h⟩
  · intro s h
    unfold load
    rw [if_pos h]
  · intro v rest hlt hne
    unfold load
    rw [if_neg (show ¬((MAGIC_BYTES ++ (packU32 v ++ rest)).take 4 ≠
      MAGIC_BYTES) from fun hc => hc rfl)]
    rw [show (MAGIC_BYTES ++ (packU32 v ++ rest)).drop 4 =
      packU32 v ++ rest from rfl]
    rw [unpackU32_packU32 v hlt rest, except_bind_ok]
    dsimp only
    rw [if_pos hne]

/-- Witness for C5: a one-byte stream fails with bad magic carrying that
byte; a correct magic followed by version 999 fails with unsupported
version 999; and the two error values differ. -/
theorem load_distinguishes_witness :
    load [Byte.raw 0] = .error (.badMagic [Byte.raw 0]) ∧
    load (MAGIC_BYTES ++ (packU32 999 ++ [])) =
      .error (.unsupportedVersion 999) ∧
    DecodeErr.badMagic [] ≠ DecodeErr.unsupportedVersion 999 :=
  ⟨load_distinguishes_bad_magic_and_version.1 [Byte.raw 0] (by decide),
   load_distinguishes_bad_magic_and_version.2.1 999 [] (by decide)
     (by decide),
   load_distinguishes_bad_magic_and_version.2.2 [] 999⟩

theorem read_materials_ok_nil {s : List Byte} {l : List Material}
    {s2 : List Byte} (h : read_materials s = .ok (l, s2)) : l = [] := by
  unfold read_materials at h
  cases h1 : unpackU32 s <;> rw [h1] at h
  case error => simp [except_bind_error] at h
  case ok p =>
  obtain ⟨c, rest⟩ := p
  rw [except_bind_ok] at h
  dsimp only at h
  cases c with
  | zero =>
    rw [read_materials_loop] at h
    simp only [Except.ok.injEq, Prod.mk.injEq] at h
    exact h.1.symm
  | succ k => exact Except.noConfusion h

theorem read_meshes_ok_nil {s : List Byte} {l : List Mesh}
    {s2 : List Byte} (h : read_meshes s = .ok (l, s2)) : l = [] := by
  unfold read_meshes at h
  cases h1 : unpackU32 s <;> rw [h1] at h
  case error => simp [except_bind_error] at h
  case ok p =>
  obtain ⟨c, rest⟩ := p
  rw [except_bind_ok] at h
  dsimp only at h
  cases c with
  | zero =>
    rw [read_meshes_loop] at h
    simp only [Except.ok.injEq, Prod.mk.injEq] at h
    exact h.1.symm
  | succ k => exact Except.noConfusion h

/-- C10: the reference importer can only succeed on streams whose
materials and meshes counts are both zero — every successfully decoded
scene has empty materials and meshes lists — and any stream declaring a
materials count of at least 1 (or, with zero materials and zero textures,
a meshes count of at least 1) fails with `TypeError`, whatever record
bytes follow, because the loop body constructs `Material()` (resp.
`Mesh()`) without the dataclass's required arguments before reading any
record field. -/
theorem load_succeeds_only_on_empty_sections :
    (∀ (s : List Byte) (scene : SceneData), load s = .ok scene →
      scene.materials = [] ∧ scene.meshes = []) ∧
    (∀ (c : Nat) (rest : List Byte), 1 ≤ c → c < 4294967296 →
      load (MAGIC_BYTES ++ (packU32 VERSION ++ (packU32 c ++ rest))) =
        .error .typeError) ∧
    (∀ (c : Nat) (rest : List Byte), 1 ≤ c → c < 4294967296 →
      load (MAGIC_BYTES ++ (packU32 VERSION ++ (packU32 0 ++
        (packU32 0 ++ (packU32 c ++ rest))))) = .error .typeError) := by
  refine ⟨?_, ?_, ?_⟩
  · intro s scene h
    unfold load at h
    dsimp only at h
    split at h
    · exact Except.noConfusion h
    · cases h1 : unpackU32 (s.drop 4) <;> rw [h1] at h
      case error => simp [except_bind_error] at h
      case ok p =>
      obtain ⟨v, s2⟩ := p
      rw [except_bind_ok] at h
      dsimp only at h
      split at h
      · exact Except.noConfusion h
      · cases h2 : read_materials s2 <;> rw [h2] at h
        case error => simp [except_bind_error] at h
        case ok pm =>
        obtain ⟨mats, s3⟩ := pm
        rw [except_bind_ok] at h
        dsimp only at h
        cases h3 : read_textures s3 <;> rw [h3] at h
        case error => simp [except_bind_error, except_map_error] at h
        case ok pt =>
        obtain ⟨texs, s4⟩ := pt
        rw [except_bind_ok] at h
        dsimp only at h
        cases h4 : read_meshes s4 <;> rw [h4] at h
        case error => simp [except_bind_error, except_map_error] at h
        case ok ph =>
        obtain ⟨meshes, s5⟩ := ph
        simp only [except_bind_ok, except_map_ok, pure, Except.pure,
          Except.ok.injEq] at h
        rw [← h]
        exact ⟨read_materials_ok_nil h2, read_meshes_ok_nil h4⟩
  · intro c rest h1 h32
    obtain ⟨k, rfl⟩ : ∃ k, c = k + 1 :=
      ⟨c - 1, by omega⟩
    unfold load
    rw [if_neg (show ¬((MAGIC_BYTES ++ (packU32 VERSION ++
      (packU32 (k + 1) ++ rest))).take 4 ≠ MAGIC_BYTES) from
      fun hc => hc rfl)]
    rw [show (MAGIC_BYTES ++ (packU32 VERSION ++
      (packU32 (k + 1) ++ rest))).drop 4 =
      packU32 VERSION ++ (packU32 (k + 1) ++ rest) from rfl]
    rw [unpackU32_packU32 VERSION (by decide), except_bind_ok]
    dsimp only
    rw [if_neg (show ¬(VERSION ≠ VERSION) from fun hc => hc rfl)]
    rw [show read_materials (packU32 (k + 1) ++ rest) =
      .error .typeError from by
        unfold read_materials
        rw [unpackU32_packU32 (k + 1) h32, except_bind_ok]
        rfl]
    rw [except_bind_error]
    
  · intro c rest h1 h32
    obtain ⟨k, rfl⟩ : ∃ k, c = k + 1 :=
      ⟨c - 1, by omega⟩
    unfold load
    rw [if_neg (show ¬((MAGIC_BYTES ++ (packU32 VERSION ++
      (packU32 0 ++ (packU32 0 ++ (packU32 (k + 1) ++ rest))))).take 4 ≠
      MAGIC_BYTES) from fun hc => hc rfl)]
    rw [show (MAGIC_BYTES ++ (packU32 VERSION ++ (packU32 0 ++
      (packU32 0 ++ (packU32 (k + 1) ++ rest))))).drop 4 =
      packU32 VERSION ++ (packU32 0 ++ (packU32 0 ++
        (packU32 (k + 1) ++ rest))) from rfl]
    rw [unpackU32_packU32 VERSION (by decide), except_bind_ok]
    dsimp only
    rw [if_neg (show ¬(VERSION ≠ VERSION) from fun hc => hc rfl)]
    rw [show read_materials (packU32 0 ++ (packU32 0 ++
      (packU32 (k + 1) ++ rest))) =
      .ok ([], packU32 0 ++ (packU32 (k + 1) ++ rest)) from by
        unfold read_materials
        rw [unpackU32_packU32 0 (by decide), except_bind_ok]
        rfl]
    rw [except_bind_ok]
    dsimp only
    rw [show read_textures (packU32 0 ++ (packU32 (k + 1) ++ rest)) =
      .ok ([], packU32 (k + 1) ++ rest) from by
        unfold read_textures
        rw [unpackU32_packU32 0 (by decide), except_bind_ok]
        rfl]
    rw [except_bind_ok]
    dsimp only
    rw [show read_meshes (packU32 (k + 1) ++ rest) =
      .error .typeError from by
        unfold read_meshes
        rw [unpackU32_packU32 (k + 1) h32, except_bind_ok]
        rfl]
    rw [except_bind_error]

/-- Witness for C10: the empty-sections stream decodes to the scene with
empty lists, and concrete one-material and one-mesh streams fail with
`TypeError`. -/
theorem load_succeeds_only_on_empty_sections_witness :
    ((SceneData.mk [] [] []).materials = [] ∧
      (SceneData.mk [] [] []).meshes = []) ∧
    load (MAGIC_BYTES ++ (packU32 VERSION ++ (packU32 1 ++ []))) =
      .error .typeError ∧
    load (MAGIC_BYTES ++ (packU32 VERSION ++ (packU32 0 ++
      (packU32 0 ++ (packU32 1 ++ []))))) = .error .typeError :=
  ⟨load_succeeds_only_on_empty_sections.1 emptySectionBytes
      (SceneData.mk [] [] []) rfl,
   load_succeeds_only_on_empty_sections.2.1 1 [] (by decide) (by decide),
   load_succeeds_only_on_empty_sections.2.2 1 [] (by decide) (by decide)⟩

theorem validate_scene_meshes_unchanged (s : SceneData) :
    (validate_scene s).2.meshes = s.meshes := by
  unfold validate_scene
  split
  · rfl
  · dsimp only
    split <;> split <;> rfl

theorem validate_scene_true_inv :
    ∀ (s r : SceneData), validate_scene s = (true, r) →
      r.materials ≠ [] ∧
      ∀ m ∈ r.meshes, m.material_index < (r.materials.length : Int) := by
  intro s r h
  unfold validate_scene at h
  by_cases hme : s.meshes = []
  · rw [if_pos hme] at h
    exact absurd h (by simp)
  · rw [if_neg hme] at h
    dsimp only at h
    by_cases hmat : s.materials = []
    · rw [if_pos hmat] at h
      split at h
      next hall =>
        simp only [Prod.mk.injEq, true_and] at h
        subst h
        simp only [List.all_eq_true, decide_eq_true_eq] at hall
        exact ⟨by simp, hall⟩
      next => exact absurd h (by simp)
    · rw [if_neg hmat] at h
      split at h
      next hall =>
        simp only [Prod.mk.injEq, true_and] at h
        subst h
        simp only [List.all_eq_true, decide_eq_true_eq] at hall
        exact ⟨hmat, hall⟩
      next => exact absurd h (by simp)

theorem validate_scene_appends_default :
    ∀ s : SceneData, s.meshes ≠ [] → s.materials = [] →
      (validate_scene s).2.materials = s.materials ++ [defaultMaterial] := by
  intro s h1 h2
  unfold validate_scene
  rw [if_neg h1]
  dsimp only
  rw [if_pos h2]
  split <;> rfl

theorem validate_scene_rejects_oob :
    ∀ s : SceneData,
      (∃ m ∈ s.meshes,
        ((validate_scene s).2.materials.length : Int) ≤ m.material_index) →
      (validate_scene s).1 = false := by
  intro s hex
  obtain ⟨m, hm, hge⟩ := hex
  by_contra hb
  rw [Bool.not_eq_false] at hb
  have heq : validate_scene s = (true, (validate_scene s).2) := by
    rw [← hb]
  obtain ⟨-, hall⟩ := validate_scene_true_inv s _ heq
  have hm2 : m ∈ (validate_scene s).2.meshes := by
    rw [validate_scene_meshes_unchanged]
    exact hm
  exact absurd (hall m hm2) (not_lt.mpr hge)

/-- C8: whenever `validate_scene` accepts, the (possibly mutated) scene
has a non-empty materials list and every mesh's `material_index` is
strictly below the number of materials; a scene with meshes and an empty
materials list gets one default material (named "Default") appended before
the index check; and a mesh whose `material_index` is at least the
(post-append) number of materials makes `validate_scene` reject. -/
theorem validate_scene_claim :
    (∀ (s r : SceneData), validate_scene s = (true, r) →
      r.materials ≠ [] ∧
      ∀ m ∈ r.meshes, m.material_index < (r.materials.length : Int)) ∧
    (∀ s : SceneData, s.meshes ≠ [] → s.materials = [] →
      (validate_scene s).2.materials = s.materials ++ [defaultMaterial]) ∧
    (∀ s : SceneData,
      (∃ m ∈ s.meshes,
        ((validate_scene s).2.materials.length : Int) ≤ m.material_index) →
      (validate_scene s).1 = false) :=
  ⟨validate_scene_true_inv, validate_scene_appends_default,
    validate_scene_rejects_oob⟩

/-- Witness for C8 at concrete scenes: an accepted one-mesh scene has a
non-empty materials list with the mesh index in range; a mesh-bearing
scene without materials gets the default material appended; and a scene
whose mesh references material 5 of 1 is rejected. -/
theorem validate_scene_claim_witness :
    (sceneOk.materials ≠ [] ∧
      ∀ m ∈ sceneOk.meshes, m.material_index < (sceneOk.materials.length : Int)) ∧
    (validate_scene sceneNoMat).2.materials =
      sceneNoMat.materials ++ [defaultMaterial] ∧
    (validate_scene sceneBad).1 = false :=
  ⟨validate_scene_claim.1 sceneOk sceneOk rfl,
   validate_scene_claim.2.1 sceneNoMat (by decide) rfl,
   validate_scene_claim.2.2 sceneBad
     ⟨badMesh, List.mem_singleton.mpr rfl, by decide⟩⟩

theorem writeVertex_length :
    ∀ (v : Vertex) (bs : List Byte), writeVertex v = .ok bs →
      bs.length = 44 := by
  intro v bs h
  unfold writeVertex at h
  cases h1 : pack3f v.position <;> rw [h1] at h
  case error => simp [except_bind_error] at h
  case ok p =>
  obtain ⟨hp, rfl⟩ := pack3f_ok_iff.mp h1
  rw [except_bind_ok] at h
  cases h2 : pack3f v.normal <;> rw [h2] at h
  case error => simp [except_bind_error] at h
  case ok n =>
  obtain ⟨hn, rfl⟩ := pack3f_ok_iff.mp h2
  rw [except_bind_ok] at h
  cases h3 : pack2f v.texcoord <;> rw [h3] at h
  case error => simp [except_bind_error] at h
  case ok t =>
  obtain ⟨htc, rfl⟩ := pack2f_ok_iff.mp h3
  rw [except_bind_ok] at h
  cases h4 : pack3f v.tangent <;> rw [h4] at h
  case error => simp [except_bind_error, except_map_error] at h
  case ok tg =>
  obtain ⟨htg, rfl⟩ := pack3f_ok_iff.mp h4
  simp only [except_bind_ok, except_map_ok, pure, Except.pure,
    Except.ok.injEq] at h
  subst h
  simp only [List.length_append, flatMap_packF32_length, hp, hn, htc, htg]

theorem writeVertexList_length :
    ∀ (vs : List Vertex) (bs : List Byte), writeVertexList vs = .ok bs →
      bs.length = 44 * vs.length := by
  intro vs
  induction vs with
  | nil =>
    intro bs h
    simp only [writeVertexList, Except.ok.injEq] at h
    subst h
    rfl
  | cons v vs ih =>
    intro bs h
    unfold writeVertexList at h
    cases h1 : writeVertex v <;> rw [h1] at h
    case error => simp [except_bind_error] at h
    case ok r =>
    rw [except_bind_ok] at h
    cases h2 : writeVertexList vs <;> rw [h2] at h
    case error => simp [except_bind_error, except_map_error] at h
    case ok rs =>
    simp only [except_bind_ok, except_map_ok, pure, Except.pure,
      Except.ok.injEq] at h
    subst h
    simp only [List.length_append, writeVertex_length v r h1, ih rs h2,
      List.length_cons]
    ring

theorem writeIndexList_length :
    ∀ (l : List Int) (bs : List Byte), writeIndexList l = .ok bs →
      bs.length = 4 * l.length := by
  intro l
  induction l with
  | nil =>
    intro bs h
    simp only [writeIndexList, Except.ok.injEq] at h
    subst h
    rfl
  | cons i l ih =>
    intro bs h
    unfold writeIndexList at h
    cases h1 : packU32IntE i <;> rw [h1] at h
    case error => simp [except_bind_error] at h
    case ok r =>
    obtain ⟨-, rfl⟩ := packU32IntE_ok_iff.mp h1
    rw [except_bind_ok] at h
    cases h2 : writeIndexList l <;> rw [h2] at h
    case error => simp [except_bind_error, except_map_error] at h
    case ok rs =>
    simp only [except_bind_ok, except_map_ok, pure, Except.pure,
      Except.ok.injEq] at h
    subst h
    simp only [List.length_append, packU32_length, ih rs h2,
      List.length_cons]
    ring

/-- C9: every vertex record the encoder emits is exactly 44 bytes
(3+3+2+3 floats of 4 symbolic bytes each, nothing between them), a vertex
block is exactly 44 bytes per vertex, and an index block is exactly 4
bytes per index — so 2 vertices give an 88-byte vertex block and 3 indices
a 12-byte index block. -/
theorem vertex_and_index_block_sizes :
    (∀ (v : Vertex) (bs : List Byte), writeVertex v = .ok bs →
      bs.length = 44) ∧
    (∀ (vs : List Vertex) (bs : List Byte), writeVertexList vs = .ok bs →
      bs.length = 44 * vs.length) ∧
    (∀ (l : List Int) (bs : List Byte), writeIndexList l = .ok bs →
      bs.length = 4 * l.length) :=
  ⟨writeVertex_length, writeVertexList_length, writeIndexList_length⟩

/-- Witness for C9: the encoded block of two sample vertices is 88 bytes
and the encoded block of three indices is 12 bytes. -/
theorem vertex_and_index_block_sizes_witness :
    twoVertexBytes.length = 88 ∧ threeIndexBytes.length = 12 := by
  constructor
  · have h := vertex_and_index_block_sizes.2.1 twoVertices twoVertexBytes
      rfl
    simpa [twoVertices] using h
  · have h := vertex_and_index_block_sizes.2.2 threeIndices threeIndexBytes
      rfl
    simpa [threeIndices] using h

theorem to_texture_index_range {i : Int} (h : TexSlotWF i) :
    -2147483648 ≤ to_texture_index i ∧ to_texture_index i < 2147483648 := by
  obtain ⟨h1, h2⟩ := h
  unfold to_texture_index
  split <;> omega

theorem exporterLayerFlags_lt (m : Material) :
    exporterLayerFlags m < 4294967296 := by
  have h : ∀ (a b c : Bool),
      ((if a then 1 else 0) ||| (if b then 2 else 0) |||
        (if c then 4 else 0) : Nat) < 4294967296 := by decide
  exact h m.transmission.isSome m.clearcoat.isSome m.sheen.isSome

theorem writeTransmissionExt_ok (m : Material) :
    ∃ ext, writeTransmissionExt m = .ok ext := by
  cases hmt : m.transmission with
  | none =>
    refine ⟨[], ?_⟩
    rw [writeTransmissionExt, hmt]
    rfl
  | some t =>
    apply Exists.intro
    rw [writeTransmissionExt, hmt]
    exact pack2f_ok_iff.mpr ⟨rfl, rfl⟩

theorem writeMaterial_ok {m : Material} (h : MaterialWF m) :
    ∃ bs, writeMaterial m = .ok bs := by
  obtain ⟨h1, h2, h3, h4, h5, h6, h7⟩ := h
  have e1 : packU32E m.name.length = .ok (packU32 m.name.length) :=
    packU32E_ok_iff.mpr ⟨h1, rfl⟩
  have e2 : pack3f m.base_color = .ok (m.base_color.flatMap packF32) :=
    pack3f_ok_iff.mpr ⟨h2, rfl⟩
  have e3 : pack3f m.emission = .ok (m.emission.flatMap packF32) :=
    pack3f_ok_iff.mpr ⟨h3, rfl⟩
  have e4 := packI32E_ok_iff.mpr ⟨to_texture_index_range h4, rfl⟩
  have e5 := packI32E_ok_iff.mpr ⟨to_texture_index_range h5, rfl⟩
  have e6 := packI32E_ok_iff.mpr ⟨to_texture_index_range h6, rfl⟩
  have e7 := packI32E_ok_iff.mpr ⟨to_texture_index_range h7, rfl⟩
  have e8 : packU32E (exporterLayerFlags m) =
      .ok (packU32 (exporterLayerFlags m)) :=
    packU32E_ok_iff.mpr ⟨exporterLayerFlags_lt m, rfl⟩
  obtain ⟨ext, e9⟩ := writeTransmissionExt_ok m
  apply Exists.intro
  unfold writeMaterial
  rw [e1, except_bind_ok, e2, except_bind_ok, e3, except_bind_ok,
    e4, except_bind_ok, e5, except_bind_ok, e6, except_bind_ok,
    e7, except_bind_ok, e8, except_bind_ok, e9]
  rfl

theorem writeMaterialList_ok {ms : List Material}
    (h : ∀ m ∈ ms, MaterialWF m) :
    ∃ bs, writeMaterialList ms = .ok bs := by
  induction ms with
  | nil => exact ⟨[], rfl⟩
  | cons m ms ih =>
    obtain ⟨b1, e1⟩ := writeMaterial_ok (h m (List.mem_cons_self m ms))
    obtain ⟨b2, e2⟩ := ih (fun x hx => h x (List.mem_cons_of_mem m hx))
    refine ⟨b1 ++ b2, ?_⟩
    unfold writeMaterialList
    rw [e1, except_bind_ok, e2]
    rfl

theorem writeMaterials_ok {ms : List Material}
    (hc : ms.length < 4294967296) (h : ∀ m ∈ ms, MaterialWF m) :
    ∃ bs, writeMaterials ms = .ok bs := by
  obtain ⟨b, e⟩ := writeMaterialList_ok h
  apply Exists.intro
  unfold writeMaterials
  rw [packU32E_ok_iff.mpr ⟨hc, rfl⟩, except_bind_ok, e]
  rfl

theorem writeTexture_ok {t : Texture} (h : TextureWF t) :
    ∃ bs, writeTexture t = .ok bs := by
  apply Exists.intro
  unfold writeTexture
  rw [packU32E_ok_iff.mpr ⟨h, rfl⟩]
  rfl

theorem writeTextureList_ok {ts : List Texture}
    (h : ∀ t ∈ ts, TextureWF t) :
    ∃ bs, writeTextureList ts = .ok bs := by
  induction ts with
  | nil => exact ⟨[], rfl⟩
  | cons t ts ih =>
    obtain ⟨b1, e1⟩ := writeTexture_ok (h t (List.mem_cons_self t ts))
    obtain ⟨b2, e2⟩ := ih (fun x hx => h x (List.mem_cons_of_mem t hx))
    refine ⟨b1 ++ b2, ?_⟩
    unfold writeTextureList
    rw [e1, except_bind_ok, e2]
    rfl

theorem writeTextures_ok {ts : List Texture}
    (hc : ts.length < 4294967296) (h : ∀ t ∈ ts, TextureWF t) :
    ∃ bs, writeTextures ts = .ok bs := by
  obtain ⟨b, e⟩ := writeTextureList_ok h
  apply Exists.intro
  unfold writeTextures
  rw [packU32E_ok_iff.mpr ⟨hc, rfl⟩, except_bind_ok, e]
  rfl

theorem writeVertex_ok {v : Vertex} (h : VertexWF v) :
    ∃ bs, writeVertex v = .ok bs := by
  obtain ⟨h1, h2, h3, h4⟩ := h
  apply Exists.intro
  unfold writeVertex
  rw [pack3f_ok_iff.mpr ⟨h1, rfl⟩, except_bind_ok,
    pack3f_ok_iff.mpr ⟨h2, rfl⟩, except_bind_ok,
    pack2f_ok_iff.mpr ⟨h3, rfl⟩, except_bind_ok,
    pack3f_ok_iff.mpr ⟨h4, rfl⟩]
  rfl

theorem writeVertexList_ok {vs : List Vertex}
    (h : ∀ v ∈ vs, VertexWF v) :
    ∃ bs, writeVertexList vs = .ok bs := by
  induction vs with
  | nil => exact ⟨[], rfl⟩
  | cons v vs ih =>
    obtain ⟨b1, e1⟩ := writeVertex_ok (h v (List.mem_cons_self v vs))
    obtain ⟨b2, e2⟩ := ih (fun x hx => h x (List.mem_cons_of_mem v hx))
    refine ⟨b1 ++ b2, ?_⟩
    unfold writeVertexList
    rw [e1, except_bind_ok, e2]
    rfl

theorem writeIndexList_ok {l : List Int}
    (h : ∀ i ∈ l, 0 ≤ i ∧ i < 4294967296) :
    ∃ bs, writeIndexList l = .ok bs := by
  induction l with
  | nil => exact ⟨[], rfl⟩
  | cons i l ih =>
    obtain ⟨b2, e2⟩ := ih (fun x hx => h x (List.mem_cons_of_mem i hx))
    apply Exists.intro
    unfold writeIndexList
    rw [packU32IntE_ok_iff.mpr ⟨h i (List.mem_cons_self i l), rfl⟩,
      except_bind_ok, e2]
    rfl

theorem writeMesh_ok {nmats : Nat} {m : Mesh} (hn : nmats < 4294967296)
    (h : MeshWF nmats m) : ∃ bs, writeMesh m = .ok bs := by
  obtain ⟨h1, h2, h3, h4, h5, h6, h7, h8⟩ := h
  obtain ⟨vb, ev⟩ := writeVertexList_ok h5
  obtain ⟨ib, ei⟩ := writeIndexList_ok (fun i hi =>
    ⟨(h8 i hi).1, by have := (h8 i hi).2; omega⟩)
  apply Exists.intro
  unfold writeMesh
  rw [packU32E_ok_iff.mpr ⟨h1, rfl⟩, except_bind_ok,
    packU32IntE_ok_iff.mpr ⟨⟨h2, by omega⟩, rfl⟩, except_bind_ok,
    packU32E_ok_iff.mpr ⟨h4, rfl⟩, except_bind_ok, ev, except_bind_ok,
    packU32E_ok_iff.mpr ⟨h6, rfl⟩, except_bind_ok, ei]
  rfl

theorem writeMeshList_ok {nmats : Nat} {ms : List Mesh}
    (hn : nmats < 4294967296) (h : ∀ m ∈ ms, MeshWF nmats m) :
    ∃ bs, writeMeshList ms = .ok bs := by
  induction ms with
  | nil => exact ⟨[], rfl⟩
  | cons m ms ih =>
    obtain ⟨b1, e1⟩ := writeMesh_ok hn (h m (List.mem_cons_self m ms))
    obtain ⟨b2, e2⟩ := ih (fun x hx => h x (List.mem_cons_of_mem m hx))
    refine ⟨b1 ++ b2, ?_⟩
    unfold writeMeshList
    rw [e1, except_bind_ok, e2]
    rfl

theorem writeMeshes_ok {nmats : Nat} {ms : List Mesh}
    (hn : nmats < 4294967296) (hc : ms.length < 4294967296)
    (h : ∀ m ∈ ms, MeshWF nmats m) :
    ∃ bs, writeMeshes ms = .ok bs := by
  obtain ⟨b, e⟩ := writeMeshList_ok hn h
  apply Exists.intro
  unfold writeMeshes
  rw [packU32E_ok_iff.mpr ⟨hc, rfl⟩, except_bind_ok, e]
  rfl

/-- C7: on every scene satisfying the §3 data-model invariants the
encoder succeeds — no material, mesh or texture value makes any of its
`struct.pack` calls raise — and encoding is deterministic: it is a pure
function of the scene value, so equal scenes give byte-for-byte equal
streams. -/
theorem exportScene_total_and_deterministic :
    ∀ s : SceneData, SceneWF s →
      (∃ bs, exportScene s = .ok bs) ∧
      ∀ t : SceneData, t = s → exportScene t = exportScene s := by
  intro s hwf
  refine ⟨?_, fun t ht => by rw [ht]⟩
  obtain ⟨hc1, hc2, hc3, -, hmats, htexs, hmeshes⟩ := hwf
  obtain ⟨b1, e1⟩ := writeMaterials_ok hc1 hmats
  obtain ⟨b2, e2⟩ := writeTextures_ok hc2 htexs
  obtain ⟨b3, e3⟩ := writeMeshes_ok hc1 hc3 hmeshes
  apply Exists.intro
  unfold exportScene
  rw [e1, except_bind_ok, e2, except_bind_ok, e3]
  rfl

/-- Witness for C7 at `sampleScene`: the sample scene is well-formed, the
encoder succeeds on it, and re-encoding it gives the same stream. -/
theorem exportScene_total_witness :
    (∃ bs, exportScene sampleScene = .ok bs) ∧
    exportScene sampleScene = exportScene sampleScene :=
  ⟨(exportScene_total_and_deterministic sampleScene (by decide)).1,
   (exportScene_total_and_deterministic sampleScene (by decide)).2
     sampleScene rfl⟩

end ACG
